import Mathlib

/-!
Shallow embedding of the TelcoNova front-end session/authentication core
(`src/lib/auth.ts`, `src/hooks/use-auth.tsx`) and of the template-content
validator (`src/lib/api.ts`).

Conventions of the embedding:
* `Date.now()` timestamps are passed explicitly as a `now : Nat` argument.
* The two JS `Map<string, number>` fields of `AuthService` are modelled as
  functions `String → Option Nat` (`get` is application, `set`/`delete` are
  the functional updates `mapSet`/`mapDelete`).
* `localStorage` keys touched by the service (token, username, last activity,
  audit log) are fields of `AuthState`; `console.warn` output is collected in
  the `warnings` field.
* Network effects are made explicit: the outcome of the single `fetch` in
  `login` is a `FetchOutcome` parameter, the outcome of the revocation call in
  `logout` is a `RevokeOutcome` parameter.  A boolean in `login`'s result
  records whether the network/mock branch was reached at all.
* JS truthiness matters in three places and is mirrored exactly:
  `blockTime && ...` (a stored `0` is treated as absent), `error.message`
  (an empty string is falsy), and `username || stored || 'unknown'`.
-/

namespace TelcoNova

/-- The `\x7b` character, kept out of string literals. -/
def lbrace : Char := Char.ofNat 123

/-- The `\x7d` character, kept out of string literals. -/
def rbrace : Char := Char.ofNat 125

/-- JS `a || b` on an optional string: `undefined` and `""` are falsy. -/
def jsOrElse (a : Option String) (b : String) : String :=
  match a with
  | some s => if s = "" then b else s
  | none => b

/-- `Math.ceil(n / d)` for natural `n`, positive `d`. -/
def jsCeilDiv (n d : Nat) : Nat := (n + d - 1) / d

/-- One entry of the `auth_logs` array built by `AuthService.logEvent`.
The `hora` field of the source (a locale rendering of the same instant as
`fecha`) is not repeated; `fecha` keeps the numeric timestamp. -/
structure AuditEvent where
  fecha : Nat
  usuario : String
  tipoEvento : String
  descripcion : String
  ip : String
deriving DecidableEq

/-- Number of audit entries of a given event type (statement vocabulary). -/
def countEvents (l : List AuditEvent) (ty : String) : Nat :=
  (l.filter (fun e => e.tipoEvento = ty)).length

/-- Functional update standing for `Map.set`. -/
def mapSet (m : String → Option Nat) (k : String) (v : Nat) : String → Option Nat :=
  fun x => if x = k then some v else m x

/-- Functional update standing for `Map.delete`. -/
def mapDelete (m : String → Option Nat) (k : String) : String → Option Nat :=
  fun x => if x = k then none else m x

/-- The mutable state of `AuthService` together with the `localStorage` keys
it touches (`auth_failed_attempts`, `auth_block_until`, `auth_logs`, the JWT
token, `auth_username`, `last_activity`) and the collected `console.warn`
messages. -/
structure AuthState where
  failedAttempts : String → Option Nat
  blockUntil : String → Option Nat
  logs : List AuditEvent
  token : Option String
  authUsername : Option String
  lastActivity : Option Nat
  warnings : List String

/-- A fresh browser profile: empty maps, empty log, no session. -/
def emptyState : AuthState :=
  { failedAttempts := fun _ => none,
    blockUntil := fun _ => none,
    logs := [],
    token := none,
    authUsername := none,
    lastActivity := none,
    warnings := [] }

/-- `MAX_ATTEMPTS` from auth.ts. -/
def MAX_ATTEMPTS : Nat := 3

/-- `BLOCK_DURATION` from auth.ts (15 minutes in milliseconds). -/
def BLOCK_DURATION : Nat := 15 * 60 * 1000

/-- `INACTIVITY_TIMEOUT` from use-auth.tsx (15 minutes in milliseconds). -/
def INACTIVITY_TIMEOUT : Nat := 15 * 60 * 1000

/-- `AuthService.logEvent`: push the event onto `auth_logs`, then shift once
if the length went past 100. -/
def logEvent (s : AuthState) (now : Nat) (eventType username description : String) :
    AuthState :=
  let event : AuditEvent :=
    { fecha := now, usuario := username, tipoEvento := eventType,
      descripcion := description, ip := "client" }
  let logs := s.logs ++ [event]
  { s with logs := if logs.length > 100 then logs.drop 1 else logs }

/-- `AuthService.isBlocked`.  Returns the boolean result and the (possibly
cleared) state.  The source tests `blockTime && ...`, so a stored value of `0`
is falsy and neither blocks nor triggers the clearing branch. -/
def isBlocked (s : AuthState) (now : Nat) (username : String) : Bool × AuthState :=
  match s.blockUntil username with
  | some blockTime =>
    if blockTime ≠ 0 ∧ now < blockTime then (true, s)
    else if blockTime ≠ 0 ∧ blockTime ≤ now then
      (false, { s with blockUntil := mapDelete s.blockUntil username,
                       failedAttempts := mapDelete s.failedAttempts username })
    else (false, s)
  | none => (false, s)

/-- `AuthService.getBlockTimeRemaining`: `Math.max(0, blockTime - now)` is
natural subtraction; `!blockTime` makes both `undefined` and `0` yield `0`. -/
def getBlockTimeRemaining (s : AuthState) (now : Nat) (username : String) : Nat :=
  match s.blockUntil username with
  | some blockTime => blockTime - now
  | none => 0

/-- `AuthService.recordFailedAttempt`: bump the counter, block and log
`ACCOUNT_BLOCKED` at the maximum, otherwise log `LOGIN_FAILED`. -/
def recordFailedAttempt (s : AuthState) (now : Nat) (username : String) :
    Nat × AuthState :=
  let attempts := (s.failedAttempts username).getD 0 + 1
  let s1 := { s with failedAttempts := mapSet s.failedAttempts username attempts }
  if attempts ≥ MAX_ATTEMPTS then
    let s2 := { s1 with blockUntil := mapSet s1.blockUntil username (now + BLOCK_DURATION) }
    (attempts, logEvent s2 now "ACCOUNT_BLOCKED" username
      "Cuenta bloqueada por intentos fallidos")
  else
    (attempts, logEvent s1 now "LOGIN_FAILED" username
      ("Intento fallido " ++ toString attempts ++ "/" ++ toString MAX_ATTEMPTS))

/-- `AuthService.resetFailedAttempts`. -/
def resetFailedAttempts (s : AuthState) (username : String) : AuthState :=
  { s with failedAttempts := mapDelete s.failedAttempts username,
           blockUntil := mapDelete s.blockUntil username }

/-- `AuthService.getRemainingAttempts`: `Math.max(0, MAX_ATTEMPTS - attempts)`
is natural subtraction. -/
def getRemainingAttempts (s : AuthState) (username : String) : Nat :=
  MAX_ATTEMPTS - (s.failedAttempts username).getD 0

/-- `LoginRequest` DTO. -/
structure LoginRequest where
  username : String
  password : String
deriving DecidableEq

/-- `AuthResponse` DTO. -/
structure AuthResponse where
  jwtToken : String
  welcomeMessage : String
  expirationTime : String
deriving DecidableEq

/-- `AuthError`: the structured error objects thrown by `login`/`mockLogin`,
and also plain rethrown exceptions (then only `message` is populated). -/
structure AuthError where
  message : String
  remainingAttempts : Option Nat
  isBlocked : Option Bool
deriving DecidableEq

/-- Outcome of the single `fetch` in the non-mock branch of `login`:
`ok` is an HTTP 2xx whose body parsed as `AuthResponse`;
`httpError` is `!response.ok`, carrying `errorData.message` when the error
body had one; `netError` is a rejected `fetch`, carrying the `message` of the
thrown exception (per the fetch standard a network failure rejects with a
`TypeError`, whose `message` is a non-empty implementation string such as
"Failed to fetch"). -/
inductive FetchOutcome where
  | ok (resp : AuthResponse)
  | httpError (message : Option String)
  | netError (message : String)

/-- The `validUsers` table of `mockLogin`. -/
def validUsers : String → Option String := fun u =>
  if u = "admin" then some "admin123"
  else if u = "supervisor" then some "supervisor123"
  else if u = "usuario1" then some "contraseña123"
  else none

/-- The message thrown while a remaining attempt exists. -/
def failMsg (remaining : Nat) : String :=
  "Credenciales incorrectas. Le quedan " ++ toString remaining ++ " intento" ++
    (if remaining > 1 then "s" else "") ++ "."

/-- The message of the `AccountLocked` rejection issued by the lockout guard
at the top of `login`, with the remaining minutes interpolated. -/
def lockedMsg (minutes : Nat) : String :=
  "Cuenta bloqueada por intentos fallidos. Intente nuevamente en " ++
    toString minutes ++ " minutos."

/-- Shared failed-credentials tail of `mockLogin` and of the `!response.ok`
branch of `login`: record the attempt, then throw either the
remaining-attempts error or the just-blocked error.  `backendMsg` is
`errorData.message`, used through JS `||` (absent or empty falls back). -/
def failedCredentials (s : AuthState) (now : Nat) (username : String)
    (backendMsg : Option String) : AuthError × AuthState :=
  let (attempts, s1) := recordFailedAttempt s now username
  let remaining := MAX_ATTEMPTS - attempts
  if remaining > 0 then
    ({ message := jsOrElse backendMsg (failMsg remaining),
       remainingAttempts := some remaining, isBlocked := none }, s1)
  else
    ({ message := jsOrElse backendMsg "Cuenta bloqueada por intentos fallidos.",
       remainingAttempts := some 0, isBlocked := some true }, s1)

/-- `AuthService.mockLogin` (without the lockout guard, which lives in
`login`).  The mock token interpolates `Date.now()` and the username. -/
def mockLogin (s : AuthState) (now : Nat) (cred : LoginRequest) :
    Except AuthError AuthResponse × AuthState :=
  match validUsers cred.username with
  | some pw =>
    if pw = cred.password then
      let mockToken := "mock_jwt_token_" ++ toString now ++ "_" ++ cred.username
      let s1 := resetFailedAttempts s cred.username
      let s2 := { s1 with token := some mockToken,
                          authUsername := some cred.username,
                          lastActivity := some now }
      let s3 := logEvent s2 now "LOGIN_SUCCESS" cred.username
        "Inicio de sesión exitoso (MODO MOCK)"
      (Except.ok
        { jwtToken := mockToken,
          welcomeMessage := "¡Bienvenido, " ++ cred.username ++ "! (Modo desarrollo)",
          expirationTime := toString (now + 30 * 60 * 1000) },
       s3)
    else
      let (e, s1) := failedCredentials s now cred.username none
      (Except.error e, s1)
  | none =>
    let (e, s1) := failedCredentials s now cred.username none
    (Except.error e, s1)

/-- `AuthService.login`.  The third component of the result is `true` exactly
when the credential check (mock table or `fetch`) was reached.

The `catch` block of the source rethrows any caught exception whose `message`
is truthy; every error thrown inside the `try` (the structured `AuthError`
objects, the missing-token `Error`) has a non-empty message, so only a
`netError` with an empty message ever reaches the `recordFailedAttempt` call
of the `catch` block. -/
def login (s : AuthState) (now : Nat) (cred : LoginRequest) (useMock : Bool)
    (net : FetchOutcome) : Except AuthError AuthResponse × AuthState × Bool :=
  match isBlocked s now cred.username with
  | (true, s1) =>
    let timeRemaining := jsCeilDiv (getBlockTimeRemaining s1 now cred.username) 60000
    (Except.error { message := lockedMsg timeRemaining,
                    remainingAttempts := none, isBlocked := some true },
     s1, false)
  | (false, s1) =>
    if useMock then
      let (r, s2) := mockLogin s1 now cred
      (r, s2, true)
    else
      match net with
      | FetchOutcome.httpError backendMsg =>
        let (e, s2) := failedCredentials s1 now cred.username backendMsg
        (Except.error e, s2, true)
      | FetchOutcome.ok resp =>
        if resp.jwtToken = "" then
          (Except.error
            { message := "No se recibió token JWT del servidor en el formato esperado.",
              remainingAttempts := none, isBlocked := none }, s1, true)
        else
          let s2 := resetFailedAttempts s1 cred.username
          let s3 := { s2 with token := some resp.jwtToken,
                              authUsername := some cred.username,
                              lastActivity := some now }
          (Except.ok resp,
           logEvent s3 now "LOGIN_SUCCESS" cred.username "Inicio de sesión exitoso",
           true)
      | FetchOutcome.netError msg =>
        if msg ≠ "" then
          (Except.error { message := msg, remainingAttempts := none, isBlocked := none },
           s1, true)
        else
          let (_, s2) := recordFailedAttempt s1 now cred.username
          (Except.error { message := "Error de conexión. El servidor no está disponible.",
                          remainingAttempts := some (getRemainingAttempts s2 cred.username),
                          isBlocked := none },
           s2, true)

/-- Outcome of the revocation call `authFetch(AUTH_ENDPOINT/logout)` inside
`logout`: `completed` is a settled HTTP exchange (on 401/403 `authFetch`
itself already removed the token), `failed` is a thrown network error, whose
message the `catch` block passes to `console.warn`. -/
inductive RevokeOutcome where
  | completed (tokenRejected : Bool)
  | failed (msg : String)

/-- `AuthService.logout` (the `authFetch` revocation variant): best effort
revocation, then local cleanup, then the `LOGOUT` audit event.  Never throws:
both outcomes of the revocation call are handled. -/
def logout (s : AuthState) (now : Nat) (username : Option String)
    (revoke : RevokeOutcome) : AuthState :=
  let user := jsOrElse username (jsOrElse s.authUsername "unknown")
  let s1 :=
    match revoke with
    | RevokeOutcome.completed tokenRejected =>
      if tokenRejected then { s with token := none } else s
    | RevokeOutcome.failed m => { s with warnings := s.warnings ++ [m] }
  let s2 := { s1 with token := none, authUsername := none, lastActivity := none }
  logEvent s2 now "LOGOUT" user "Cierre de sesión"

/-- `AuthService.logoutByInactivity`: `logout` plus a `SESSION_EXPIRED` audit
event.  (In the source `logout` is async and not awaited, so at runtime the
`SESSION_EXPIRED` entry can precede the `LOGOUT` entry; theorems below do not
depend on the relative order of the two entries.) -/
def logoutByInactivity (s : AuthState) (now : Nat) (username : Option String)
    (revoke : RevokeOutcome) : AuthState :=
  let user := jsOrElse username (jsOrElse s.authUsername "unknown")
  logEvent (logout s now username revoke) now "SESSION_EXPIRED" user
    "Sesión cerrada por inactividad"

/-- `AuthService.updateActivity`. -/
def updateActivity (s : AuthState) (now : Nat) : AuthState :=
  { s with lastActivity := some now }

/-- `AuthService.getLastActivity`: stored value, or `0` when absent. -/
def getLastActivity (s : AuthState) : Nat := (s.lastActivity).getD 0

/-- Result of one tick of the `checkInactivity` closure of `useAuth`. -/
structure HookResult where
  state : AuthState
  loggedOut : Bool
  navigateTo : Option String

/-- The `checkInactivity` poll tick of `useAuth`: when
`now - lastActivity > INACTIVITY_TIMEOUT` it forces the inactivity logout and
navigates to `/login`; otherwise nothing changes.  (JS computes a possibly
negative difference; natural subtraction agrees with the `>` test.) -/
def checkInactivity (s : AuthState) (now : Nat) (username : Option String)
    (revoke : RevokeOutcome) : HookResult :=
  if now - getLastActivity s > INACTIVITY_TIMEOUT then
    { state := logoutByInactivity s now username revoke,
      loggedOut := true,
      navigateTo := some "/login" }
  else
    { state := s, loggedOut := false, navigateTo := none }

/-!
Embedding of `validateTemplateContent` (`src/lib/api.ts`).  Strings are
scanned as `List Char`.

`content.match(/\x7b[^\x7d]*\x7d/g)` returns the leftmost non-overlapping
matches, each running from an opening brace to the first closing brace after
it (`bracePatterns`).

`VARIABLE_REGEX = /\x7b[a-zA-Z0-9_]+\x7d/g` is a module-level regex with the
global flag, so `VARIABLE_REGEX.test(p)` is stateful: it searches for a match
anywhere in `p` starting at `lastIndex`, advances `lastIndex` past a match,
and resets it to `0` on failure (`regexTest`).  The `lastIndex` value is
threaded explicitly; it is `0` when the module is freshly loaded.
-/

/-- Character class `[a-zA-Z0-9_]`. -/
def isWordChar (c : Char) : Bool :=
  ('a' ≤ c && c ≤ 'z') || ('A' ≤ c && c ≤ 'Z') || ('0' ≤ c && c ≤ '9') || c = '_'

/-- Split at the first closing brace: `some (before, after)` when one exists. -/
def splitAtBrace : List Char → Option (List Char × List Char)
  | [] => none
  | c :: rest =>
    if c = rbrace then some ([], rest)
    else
      match splitAtBrace rest with
      | some (pre, post) => some (c :: pre, post)
      | none => none

/-- Fuel-bounded scan for the leftmost non-overlapping matches of
`/\x7b[^\x7d]*\x7d/g`, braces included.  A position where no closing brace
follows the opening brace ends the scan (no later start can match either).
Each step consumes at least one character, so fuel equal to the list length
suffices; fuel keeps the recursion structural so that terms evaluate. -/
def bracePatternsFuel : Nat → List Char → List (List Char)
  | 0, _ => []
  | _ + 1, [] => []
  | fuel + 1, c :: rest =>
    if c = lbrace then
      match splitAtBrace rest with
      | some (inner, rest1) =>
        (lbrace :: (inner ++ [rbrace])) :: bracePatternsFuel fuel rest1
      | none => []
    else bracePatternsFuel fuel rest

/-- The matches of `content.match(/\x7b[^\x7d]*\x7d/g)` in order. -/
def bracePatterns (l : List Char) : List (List Char) :=
  bracePatternsFuel l.length l

/-- Longest prefix of word characters: its length and the remainder. -/
def takeWordRun : List Char → Nat × List Char
  | [] => (0, [])
  | c :: rest =>
    if isWordChar c then
      let (n, rest1) := takeWordRun rest
      (n + 1, rest1)
    else (0, c :: rest)

/-- Length of a `VARIABLE_REGEX` match anchored at the head of the list, if
any: an opening brace, one or more word characters, a closing brace.  (Word
characters exclude the closing brace, so greediness never backtracks.) -/
def matchVarAt (l : List Char) : Option Nat :=
  match l with
  | [] => none
  | c :: rest =>
    if c = lbrace then
      let (n, rest1) := takeWordRun rest
      if n ≥ 1 then
        match rest1 with
        | d :: _ => if d = rbrace then some (n + 2) else none
        | [] => none
      else none
    else none

/-- First `VARIABLE_REGEX` match in the list: start offset and length. -/
def searchVarMatch : List Char → Option (Nat × Nat)
  | [] => none
  | c :: rest =>
    match matchVarAt (c :: rest) with
    | some len => some (0, len)
    | none =>
      match searchVarMatch rest with
      | some (start, len) => some (start + 1, len)
      | none => none

/-- `VARIABLE_REGEX.test(p)` with the global flag: search from `lastIndex`;
on success return `true` and move `lastIndex` past the match, on failure
return `false` and reset `lastIndex` to `0`. -/
def regexTest (p : List Char) (lastIndex : Nat) : Bool × Nat :=
  match searchVarMatch (p.drop lastIndex) with
  | some (start, len) => (true, lastIndex + start + len)
  | none => (false, 0)

/-- The error message for an empty variable. -/
def emptyVarError (p : List Char) : String :=
  "Variable vacía: " ++ String.mk p ++ ". Las variables no pueden estar vacías."

/-- The error message for a variable with characters outside the class. -/
def invalidVarError (p : List Char) : String :=
  "Variable inválida: " ++ String.mk p ++
    ". Las variables solo pueden contener letras, números y guiones bajos."

/-- The loop body of `validateTemplateContent` over the matched patterns,
threading `VARIABLE_REGEX.lastIndex`.  A pattern only contributes an error
when the stateful test fails on it and its inner content (`slice(1, -1)`) is
empty or contains a character outside the class. -/
def validatePatterns : List (List Char) → Nat → List String × Nat
  | [], lastIndex => ([], lastIndex)
  | p :: ps, lastIndex =>
    let (matched, lastIndex1) := regexTest p lastIndex
    let errs :=
      if matched then []
      else
        let inner := (p.drop 1).dropLast
        if inner.isEmpty then [emptyVarError p]
        else if !(inner.all isWordChar) then [invalidVarError p]
        else []
    let (rest, lastIndex2) := validatePatterns ps lastIndex1
    (errs ++ rest, lastIndex2)

/-- Result record `\x7bisValid, errors\x7d` of `validateTemplateContent`. -/
structure ValidationResult where
  isValid : Bool
  errors : List String
deriving DecidableEq

/-- `validateTemplateContent(content)`, with the module-level
`VARIABLE_REGEX.lastIndex` before the call made explicit; returns the result
together with the `lastIndex` left for the next call. -/
def validateTemplateContent (lastIndex0 : Nat) (content : String) :
    ValidationResult × Nat :=
  let (errs, lastIndex1) := validatePatterns (bracePatterns content.toList) lastIndex0
  ({ isValid := errs.isEmpty, errors := errs }, lastIndex1)

/-- Statement vocabulary: the well-formedness the claim ascribes to one
matched pattern — non-empty inner content made only of word characters. -/
def patternContentOk (p : List Char) : Prop :=
  (p.drop 1).dropLast ≠ [] ∧ ((p.drop 1).dropLast).all isWordChar = true

instance (p : List Char) : Decidable (patternContentOk p) := by
  unfold patternContentOk; infer_instance

/-!  Statement vocabulary and helper lemmas. -/

/-- Statement vocabulary: `startsWithSeq needle hay` checks `needle` against
the front of `hay`. -/
def startsWithSeq : List Char → List Char → Bool
  | [], _ => true
  | _ :: _, [] => false
  | a :: as, b :: bs => a = b && startsWithSeq as bs

/-- Statement vocabulary: `containsSeq needle hay` checks whether `needle`
occurs contiguously anywhere in `hay`. -/
def containsSeq (needle : List Char) : List Char → Bool
  | [] => needle.isEmpty
  | c :: rest => startsWithSeq needle (c :: rest) || containsSeq needle rest

@[simp] theorem mapSet_self (m : String → Option Nat) (k : String) (v : Nat) :
    mapSet m k v k = some v := by simp [mapSet]

@[simp] theorem mapSet_other (m : String → Option Nat) (k x : String) (v : Nat)
    (h : x ≠ k) : mapSet m k v x = m x := by simp [mapSet, h]

@[simp] theorem mapDelete_self (m : String → Option Nat) (k : String) :
    mapDelete m k k = none := by simp [mapDelete]

@[simp] theorem logEvent_token (s : AuthState) (now : Nat) (ty u d : String) :
    (logEvent s now ty u d).token = s.token := rfl

@[simp] theorem logEvent_authUsername (s : AuthState) (now : Nat) (ty u d : String) :
    (logEvent s now ty u d).authUsername = s.authUsername := rfl

@[simp] theorem logEvent_lastActivity (s : AuthState) (now : Nat) (ty u d : String) :
    (logEvent s now ty u d).lastActivity = s.lastActivity := rfl

@[simp] theorem logEvent_warnings (s : AuthState) (now : Nat) (ty u d : String) :
    (logEvent s now ty u d).warnings = s.warnings := rfl

@[simp] theorem logEvent_failedAttempts (s : AuthState) (now : Nat) (ty u d : String) :
    (logEvent s now ty u d).failedAttempts = s.failedAttempts := rfl

@[simp] theorem logEvent_blockUntil (s : AuthState) (now : Nat) (ty u d : String) :
    (logEvent s now ty u d).blockUntil = s.blockUntil := rfl

/-- The event just recorded is always present in the updated log. -/
theorem mem_logEvent_self (s : AuthState) (now : Nat) (ty u d : String) :
    ({ fecha := now, usuario := u, tipoEvento := ty, descripcion := d,
       ip := "client" } : AuditEvent) ∈ (logEvent s now ty u d).logs := by
  have key : ∀ (l : List AuditEvent) (e : AuditEvent),
      e ∈ (if (l ++ [e]).length > 100 then (l ++ [e]).drop 1 else l ++ [e]) := by
    intro l e
    split
    · cases l with
      | nil => simp_all
      | cons x xs => simp
    · simp
  exact key s.logs _

/-!  Claim theorems. -/

/-- C5: the audit log never exceeds 100 entries: from any log of length at
most 100, `logEvent` appends the new entry at the end, and when the length
would become 101 it evicts the oldest (first) entry, keeping the rest in
insertion order. -/
theorem C5_audit_log_bounded (s : AuthState) (now : Nat) (ty u d : String)
    (h : s.logs.length ≤ 100) :
    (logEvent s now ty u d).logs.length ≤ 100 ∧
    (s.logs.length < 100 →
      (logEvent s now ty u d).logs
        = s.logs ++ [{ fecha := now, usuario := u, tipoEvento := ty,
                       descripcion := d, ip := "client" }]) ∧
    (s.logs.length = 100 →
      (logEvent s now ty u d).logs
        = s.logs.drop 1 ++ [{ fecha := now, usuario := u, tipoEvento := ty,
                              descripcion := d, ip := "client" }]) := by
  by_cases hlt : s.logs.length < 100
  · have hkey : (logEvent s now ty u d).logs
        = s.logs ++ [{ fecha := now, usuario := u, tipoEvento := ty,
                       descripcion := d, ip := "client" }] := by
      unfold logEvent
      dsimp only
      rw [if_neg (by simp; omega)]
    refine ⟨by rw [hkey]; simp; omega, fun _ => hkey, fun h100 => absurd h100 (by omega)⟩
  · have h100 : s.logs.length = 100 := by omega
    have hkey : (logEvent s now ty u d).logs
        = s.logs.drop 1 ++ [{ fecha := now, usuario := u, tipoEvento := ty,
                              descripcion := d, ip := "client" }] := by
      unfold logEvent
      dsimp only
      rw [if_pos (by simp; omega)]
      rw [List.drop_append_of_le_length (by omega)]
    refine ⟨by rw [hkey]; simp [h100], fun hlt2 => absurd hlt2 (by omega), fun _ => hkey⟩

/-- C5 witness at a concrete input. -/
theorem C5_audit_log_bounded_witness :
    (emptyState.logs.length ≤ 100) ∧
    ((logEvent emptyState 7 "LOGOUT" "alice" "d").logs.length ≤ 100 ∧
     (emptyState.logs.length < 100 →
       (logEvent emptyState 7 "LOGOUT" "alice" "d").logs
         = emptyState.logs ++ [{ fecha := 7, usuario := "alice", tipoEvento := "LOGOUT", descripcion := "d", ip := "client" }]) ∧
     (emptyState.logs.length = 100 →
       (logEvent emptyState 7 "LOGOUT" "alice" "d").logs
         = emptyState.logs.drop 1 ++ [{ fecha := 7, usuario := "alice", tipoEvento := "LOGOUT", descripcion := "d", ip := "client" }])) :=
  ⟨by decide, C5_audit_log_bounded emptyState 7 "LOGOUT" "alice" "d" (by decide)⟩

/-- C6: lockout expiry is idempotent: once the stored `blockUntil` timestamp
(a truthy value, as the code tests it) has passed, the first `isBlocked` call
returns `false` and deletes both the block entry and the failed-attempt entry
for that username, and any further `isBlocked` call returns `false` and
leaves the state completely unchanged. -/
theorem C6_expiry_idempotent (s : AuthState) (now now2 : Nat) (u : String) (t : Nat)
    (hb : s.blockUntil u = some t) (ht : 0 < t) (hle : t ≤ now) :
    (isBlocked s now u).1 = false ∧
    (isBlocked s now u).2.blockUntil u = none ∧
    (isBlocked s now u).2.failedAttempts u = none ∧
    isBlocked (isBlocked s now u).2 now2 u = (false, (isBlocked s now u).2) := by
  have h1 : ¬ (t ≠ 0 ∧ now < t) := by omega
  have h2 : t ≠ 0 ∧ t ≤ now := ⟨by omega, hle⟩
  have key : isBlocked s now u
      = (false, { s with blockUntil := mapDelete s.blockUntil u,
                         failedAttempts := mapDelete s.failedAttempts u }) := by
    unfold isBlocked
    rw [hb]
    simp only [if_neg h1, if_pos h2]
  rw [key]
  refine ⟨rfl, by simp, by simp, ?_⟩
  unfold isBlocked
  simp [mapDelete]

/-- C6 witness at a concrete input. -/
theorem C6_expiry_idempotent_witness :
    (let s : AuthState := { emptyState with blockUntil := mapSet emptyState.blockUntil "alice" 10, failedAttempts := mapSet emptyState.failedAttempts "alice" 3 }
     s.blockUntil "alice" = some 10 ∧ 0 < 10 ∧ 10 ≤ 25 ∧
     ((isBlocked s 25 "alice").1 = false ∧
      (isBlocked s 25 "alice").2.blockUntil "alice" = none ∧
      (isBlocked s 25 "alice").2.failedAttempts "alice" = none ∧
      isBlocked (isBlocked s 25 "alice").2 99 "alice"
        = (false, (isBlocked s 25 "alice").2))) :=
  ⟨by decide, by decide, by decide,
   C6_expiry_idempotent _ 25 99 "alice" 10 (by decide) (by decide) (by decide)⟩

/-- C8: `logout` handles every outcome of the remote revocation call without
propagating an error: the local session (token, username, last activity) is
always cleared, a `LOGOUT` audit event is always recorded, and a revocation
failure only appends its message to the warning log. -/
theorem C8_logout_never_propagates (s : AuthState) (now : Nat)
    (username : Option String) (revoke : RevokeOutcome) :
    (logout s now username revoke).token = none ∧
    (logout s now username revoke).authUsername = none ∧
    (logout s now username revoke).lastActivity = none ∧
    ({ fecha := now, usuario := jsOrElse username (jsOrElse s.authUsername "unknown"),
       tipoEvento := "LOGOUT", descripcion := "Cierre de sesión",
       ip := "client" } : AuditEvent) ∈ (logout s now username revoke).logs ∧
    (logout s now username revoke).warnings
      = s.warnings ++ (match revoke with
          | RevokeOutcome.completed _ => []
          | RevokeOutcome.failed m => [m]) := by
  cases revoke with
  | completed rejected =>
    cases rejected <;>
      exact ⟨rfl, rfl, rfl, mem_logEvent_self _ now _ _ _, by simp [logout]⟩
  | failed m =>
    exact ⟨rfl, rfl, rfl, mem_logEvent_self _ now _ _ _, by simp [logout]⟩

/-- C3: while a lockout is active (a truthy `blockUntil` entry strictly in the
future), `login` rejects with the `AccountLocked` error carrying the remaining
minutes, performs no network or mock credential check, and leaves the state
untouched — no counter increment, no audit event. -/
theorem C3_locked_short_circuits (s : AuthState) (now : Nat) (u p : String)
    (useMock : Bool) (net : FetchOutcome) (t : Nat)
    (hb : s.blockUntil u = some t) (hlt : now < t) :
    login s now { username := u, password := p } useMock net
      = (Except.error { message := lockedMsg (jsCeilDiv (t - now) 60000),
                        remainingAttempts := none, isBlocked := some true },
         s, false) := by
  have h1 : t ≠ 0 ∧ now < t := ⟨by omega, hlt⟩
  simp [login, isBlocked, hb, if_pos h1, getBlockTimeRemaining]

/-- C3 witness at a concrete input. -/
theorem C3_locked_short_circuits_witness :
    (let s : AuthState := { emptyState with blockUntil := mapSet emptyState.blockUntil "alice" 900000 }
     s.blockUntil "alice" = some 900000 ∧ (5 : Nat) < 900000 ∧
     login s 5 { username := "alice", password := "pw" } false
         (FetchOutcome.httpError none)
       = (Except.error { message := lockedMsg (jsCeilDiv (900000 - 5) 60000),
                         remainingAttempts := none, isBlocked := some true },
          s, false)) :=
  ⟨by decide, by decide,
   C3_locked_short_circuits _ 5 "alice" "pw" false (FetchOutcome.httpError none)
     900000 (by decide) (by decide)⟩

/-- C4: whatever the prior failed-attempt count (0, 1 or 2, stored or absent)
for a username that is not actively blocked, a successful login (backend
accepted, token present) resets the counter and removes any `blockUntil`
entry, so `getRemainingAttempts` returns 3 and `isBlocked` returns `false`
afterwards. -/
theorem C4_success_resets (s : AuthState) (now now2 : Nat) (u p : String)
    (resp : AuthResponse)
    (hc : (s.failedAttempts u).getD 0 ≤ 2)
    (hnb : (isBlocked s now u).1 = false)
    (hj : resp.jwtToken ≠ "") :
    (login s now { username := u, password := p } false (FetchOutcome.ok resp)).1
      = Except.ok resp ∧
    (login s now { username := u, password := p } false
        (FetchOutcome.ok resp)).2.1.failedAttempts u = none ∧
    (login s now { username := u, password := p } false
        (FetchOutcome.ok resp)).2.1.blockUntil u = none ∧
    getRemainingAttempts (login s now { username := u, password := p } false
        (FetchOutcome.ok resp)).2.1 u = 3 ∧
    (isBlocked (login s now { username := u, password := p } false
        (FetchOutcome.ok resp)).2.1 now2 u).1 = false := by
  rcases hib : isBlocked s now u with ⟨b, s1⟩
  have hb : b = false := by rw [hib] at hnb; exact hnb
  subst hb
  have key : login s now { username := u, password := p } false (FetchOutcome.ok resp)
      = (Except.ok resp,
         logEvent { resetFailedAttempts s1 u with token := some resp.jwtToken, authUsername := some u, lastActivity := some now } now "LOGIN_SUCCESS" u "Inicio de sesión exitoso", true) := by
    unfold login
    rw [hib]
    simp [hj]
  rw [key]
  refine ⟨rfl, by simp [resetFailedAttempts], by simp [resetFailedAttempts], ?_, ?_⟩
  · unfold getRemainingAttempts
    simp [resetFailedAttempts, MAX_ATTEMPTS]
  · unfold isBlocked
    simp [resetFailedAttempts]

/-- C4 witness at a concrete input. -/
theorem C4_success_resets_witness :
    (let s : AuthState := { emptyState with failedAttempts := mapSet emptyState.failedAttempts "alice" 2 }
     (s.failedAttempts "alice").getD 0 ≤ 2 ∧
     (isBlocked s 40 "alice").1 = false ∧
     ("tok" : String) ≠ "" ∧
     ((login s 40 { username := "alice", password := "pw" } false
         (FetchOutcome.ok { jwtToken := "tok", welcomeMessage := "w", expirationTime := "e" })).1
        = Except.ok { jwtToken := "tok", welcomeMessage := "w", expirationTime := "e" } ∧
      (login s 40 { username := "alice", password := "pw" } false
         (FetchOutcome.ok { jwtToken := "tok", welcomeMessage := "w", expirationTime := "e" })).2.1.failedAttempts "alice" = none ∧
      (login s 40 { username := "alice", password := "pw" } false
         (FetchOutcome.ok { jwtToken := "tok", welcomeMessage := "w", expirationTime := "e" })).2.1.blockUntil "alice" = none ∧
      getRemainingAttempts (login s 40 { username := "alice", password := "pw" } false
         (FetchOutcome.ok { jwtToken := "tok", welcomeMessage := "w", expirationTime := "e" })).2.1 "alice" = 3 ∧
      (isBlocked (login s 40 { username := "alice", password := "pw" } false
         (FetchOutcome.ok { jwtToken := "tok", welcomeMessage := "w", expirationTime := "e" })).2.1 41 "alice").1 = false)) :=
  ⟨by decide, by decide, by decide,
   C4_success_resets _ 40 41 "alice" "pw"
     { jwtToken := "tok", welcomeMessage := "w", expirationTime := "e" }
     (by decide) (by decide) (by decide)⟩

/-- C7: a poll tick whose idle time exceeds the 15-minute timeout forces the
inactivity logout — clearing token, username and last activity, recording a
`SESSION_EXPIRED` audit event — and navigates to the login entry point; and a
tracked interaction sets `lastActivity` to the current time, so a later tick
within the timeout window does not log out. -/
theorem C7_inactivity_logout (s : AuthState) (now : Nat)
    (username : Option String) (revoke : RevokeOutcome)
    (h : INACTIVITY_TIMEOUT < now - getLastActivity s) :
    ((checkInactivity s now username revoke).loggedOut = true ∧
     (checkInactivity s now username revoke).navigateTo = some "/login" ∧
     (checkInactivity s now username revoke).state.token = none ∧
     (checkInactivity s now username revoke).state.authUsername = none ∧
     (checkInactivity s now username revoke).state.lastActivity = none ∧
     ({ fecha := now, usuario := jsOrElse username (jsOrElse s.authUsername "unknown"),
        tipoEvento := "SESSION_EXPIRED", descripcion := "Sesión cerrada por inactividad",
        ip := "client" } : AuditEvent) ∈ (checkInactivity s now username revoke).state.logs) ∧
    (∀ tAct tTick : Nat, tTick - tAct ≤ INACTIVITY_TIMEOUT →
      getLastActivity (updateActivity s tAct) = tAct ∧
      (checkInactivity (updateActivity s tAct) tTick username revoke).loggedOut
        = false) := by
  constructor
  · have key : checkInactivity s now username revoke
        = { state := logoutByInactivity s now username revoke,
            loggedOut := true, navigateTo := some "/login" } := by
      unfold checkInactivity
      rw [if_pos h]
    rw [key]
    refine ⟨rfl, rfl, ?_, ?_, ?_, ?_⟩
    · simp [logoutByInactivity, logout]
    · simp [logoutByInactivity, logout]
    · simp [logoutByInactivity, logout]
    · exact mem_logEvent_self _ now _ _ _
  · intro tAct tTick hwin
    have hact : getLastActivity (updateActivity s tAct) = tAct := rfl
    refine ⟨hact, ?_⟩
    unfold checkInactivity
    rw [hact, if_neg (by omega)]

/-- C7 witness at a concrete input. -/
theorem C7_inactivity_logout_witness :
    (INACTIVITY_TIMEOUT < 900001 - getLastActivity emptyState) ∧
    (((checkInactivity emptyState 900001 (some "alice") (RevokeOutcome.completed false)).loggedOut = true ∧
      (checkInactivity emptyState 900001 (some "alice") (RevokeOutcome.completed false)).navigateTo = some "/login" ∧
      (checkInactivity emptyState 900001 (some "alice") (RevokeOutcome.completed false)).state.token = none ∧
      (checkInactivity emptyState 900001 (some "alice") (RevokeOutcome.completed false)).state.authUsername = none ∧
      (checkInactivity emptyState 900001 (some "alice") (RevokeOutcome.completed false)).state.lastActivity = none ∧
      ({ fecha := 900001, usuario := jsOrElse (some "alice") (jsOrElse emptyState.authUsername "unknown"),
         tipoEvento := "SESSION_EXPIRED", descripcion := "Sesión cerrada por inactividad",
         ip := "client" } : AuditEvent)
        ∈ (checkInactivity emptyState 900001 (some "alice") (RevokeOutcome.completed false)).state.logs) ∧
     (∀ tAct tTick : Nat, tTick - tAct ≤ INACTIVITY_TIMEOUT →
       getLastActivity (updateActivity emptyState tAct) = tAct ∧
       (checkInactivity (updateActivity emptyState tAct) tTick (some "alice")
           (RevokeOutcome.completed false)).loggedOut = false)) :=
  ⟨by decide,
   C7_inactivity_logout emptyState 900001 (some "alice")
     (RevokeOutcome.completed false) (by decide)⟩

/-- Helper: the full result of three consecutive backend-rejected logins from
a state with no prior record for the username. -/
theorem login_three_fail (u p1 p2 p3 : String) (m1 m2 m3 : Option String)
    (t1 t2 t3 : Nat) (s0 : AuthState)
    (hf : s0.failedAttempts u = none) (hb : s0.blockUntil u = none)
    (hl : s0.logs = []) :
    login (login (login s0 t1 { username := u, password := p1 } false
        (FetchOutcome.httpError m1)).2.1 t2 { username := u, password := p2 } false
        (FetchOutcome.httpError m2)).2.1 t3 { username := u, password := p3 } false
        (FetchOutcome.httpError m3)
      = (Except.error { message := jsOrElse m3 "Cuenta bloqueada por intentos fallidos.", remainingAttempts := some 0, isBlocked := some true },
         { s0 with failedAttempts := mapSet (mapSet (mapSet s0.failedAttempts u 1) u 2) u 3, blockUntil := mapSet s0.blockUntil u (t3 + BLOCK_DURATION), logs := [{ fecha := t1, usuario := u, tipoEvento := "LOGIN_FAILED", descripcion := "Intento fallido " ++ toString 1 ++ "/" ++ toString MAX_ATTEMPTS, ip := "client" }, { fecha := t2, usuario := u, tipoEvento := "LOGIN_FAILED", descripcion := "Intento fallido " ++ toString 2 ++ "/" ++ toString MAX_ATTEMPTS, ip := "client" }, { fecha := t3, usuario := u, tipoEvento := "ACCOUNT_BLOCKED", descripcion := "Cuenta bloqueada por intentos fallidos", ip := "client" }] },
         true) := by
  have h1 : (login s0 t1 { username := u, password := p1 } false
      (FetchOutcome.httpError m1)).2.1
      = { s0 with failedAttempts := mapSet s0.failedAttempts u 1, logs := [{ fecha := t1, usuario := u, tipoEvento := "LOGIN_FAILED", descripcion := "Intento fallido " ++ toString 1 ++ "/" ++ toString MAX_ATTEMPTS, ip := "client" }] } := by
    simp [login, isBlocked, hb, failedCredentials, recordFailedAttempt, hf,
      MAX_ATTEMPTS, logEvent, hl]
  rw [h1]
  have h2 : (login { s0 with failedAttempts := mapSet s0.failedAttempts u 1, logs := [{ fecha := t1, usuario := u, tipoEvento := "LOGIN_FAILED", descripcion := "Intento fallido " ++ toString 1 ++ "/" ++ toString MAX_ATTEMPTS, ip := "client" }] } t2 { username := u, password := p2 } false
      (FetchOutcome.httpError m2)).2.1
      = { s0 with failedAttempts := mapSet (mapSet s0.failedAttempts u 1) u 2, logs := [{ fecha := t1, usuario := u, tipoEvento := "LOGIN_FAILED", descripcion := "Intento fallido " ++ toString 1 ++ "/" ++ toString MAX_ATTEMPTS, ip := "client" }, { fecha := t2, usuario := u, tipoEvento := "LOGIN_FAILED", descripcion := "Intento fallido " ++ toString 2 ++ "/" ++ toString MAX_ATTEMPTS, ip := "client" }] } := by
    simp [login, isBlocked, hb, failedCredentials, recordFailedAttempt,
      MAX_ATTEMPTS, logEvent]
  rw [h2]
  simp [login, isBlocked, hb, failedCredentials, recordFailedAttempt,
    MAX_ATTEMPTS, logEvent, BLOCK_DURATION]

/-- C1: for every username starting from zero failed attempts, three failed
login calls (backend rejections) reject the third with the blocked error
(`isBlocked` set, no attempt left), install the 15-minute block, and leave
the audit log with exactly two `LOGIN_FAILED` entries and exactly one
`ACCOUNT_BLOCKED` entry. -/
theorem C1_three_failures_lock (u p1 p2 p3 : String) (m1 m2 m3 : Option String)
    (t1 t2 t3 : Nat) (s0 : AuthState)
    (hf : s0.failedAttempts u = none) (hb : s0.blockUntil u = none)
    (hl : s0.logs = []) :
    (∃ e : AuthError,
      (login (login (login s0 t1 { username := u, password := p1 } false
          (FetchOutcome.httpError m1)).2.1 t2 { username := u, password := p2 } false
          (FetchOutcome.httpError m2)).2.1 t3 { username := u, password := p3 } false
          (FetchOutcome.httpError m3)).1 = Except.error e ∧
      e.isBlocked = some true ∧ e.remainingAttempts = some 0) ∧
    countEvents (login (login (login s0 t1 { username := u, password := p1 } false
          (FetchOutcome.httpError m1)).2.1 t2 { username := u, password := p2 } false
          (FetchOutcome.httpError m2)).2.1 t3 { username := u, password := p3 } false
          (FetchOutcome.httpError m3)).2.1.logs "LOGIN_FAILED" = 2 ∧
    countEvents (login (login (login s0 t1 { username := u, password := p1 } false
          (FetchOutcome.httpError m1)).2.1 t2 { username := u, password := p2 } false
          (FetchOutcome.httpError m2)).2.1 t3 { username := u, password := p3 } false
          (FetchOutcome.httpError m3)).2.1.logs "ACCOUNT_BLOCKED" = 1 ∧
    (login (login (login s0 t1 { username := u, password := p1 } false
          (FetchOutcome.httpError m1)).2.1 t2 { username := u, password := p2 } false
          (FetchOutcome.httpError m2)).2.1 t3 { username := u, password := p3 } false
          (FetchOutcome.httpError m3)).2.1.blockUntil u = some (t3 + BLOCK_DURATION) := by
  rw [login_three_fail u p1 p2 p3 m1 m2 m3 t1 t2 t3 s0 hf hb hl]
  refine ⟨⟨_, rfl, rfl, rfl⟩, ?_, ?_, by simp⟩
  · simp [countEvents]
  · simp [countEvents]

/-- C1 witness at a concrete input. -/
theorem C1_three_failures_lock_witness :
    (emptyState.failedAttempts "alice" = none ∧ emptyState.blockUntil "alice" = none ∧
     emptyState.logs = []) ∧
    ((∃ e : AuthError,
      (login (login (login emptyState 0 { username := "alice", password := "w" } false
          (FetchOutcome.httpError none)).2.1 1 { username := "alice", password := "w" } false
          (FetchOutcome.httpError none)).2.1 2 { username := "alice", password := "w" } false
          (FetchOutcome.httpError none)).1 = Except.error e ∧
      e.isBlocked = some true ∧ e.remainingAttempts = some 0) ∧
    countEvents (login (login (login emptyState 0 { username := "alice", password := "w" } false
          (FetchOutcome.httpError none)).2.1 1 { username := "alice", password := "w" } false
          (FetchOutcome.httpError none)).2.1 2 { username := "alice", password := "w" } false
          (FetchOutcome.httpError none)).2.1.logs "LOGIN_FAILED" = 2 ∧
    countEvents (login (login (login emptyState 0 { username := "alice", password := "w" } false
          (FetchOutcome.httpError none)).2.1 1 { username := "alice", password := "w" } false
          (FetchOutcome.httpError none)).2.1 2 { username := "alice", password := "w" } false
          (FetchOutcome.httpError none)).2.1.logs "ACCOUNT_BLOCKED" = 1 ∧
    (login (login (login emptyState 0 { username := "alice", password := "w" } false
          (FetchOutcome.httpError none)).2.1 1 { username := "alice", password := "w" } false
          (FetchOutcome.httpError none)).2.1 2 { username := "alice", password := "w" } false
          (FetchOutcome.httpError none)).2.1.blockUntil "alice" = some (2 + BLOCK_DURATION)) :=
  ⟨⟨rfl, rfl, rfl⟩,
   C1_three_failures_lock "alice" "w" "w" "w" none none none 0 1 2 emptyState
     rfl rfl rfl⟩

/-- C2 counterexample: at concrete times 0, 1, 2 the third failed
`login("alice","wrong")` rejects with the blocked error, but its message is
the fixed string `Cuenta bloqueada por intentos fallidos.` — it mentions no
remaining time: neither `15` nor `minuto` occurs in it.  (The message with
the remaining minutes is only produced by the lockout guard on a call made
while the account is already locked.) -/
theorem C2_counterexample :
    (login (login (login emptyState 0 { username := "alice", password := "wrong" } false
        (FetchOutcome.httpError none)).2.1 1 { username := "alice", password := "wrong" } false
        (FetchOutcome.httpError none)).2.1 2 { username := "alice", password := "wrong" } false
        (FetchOutcome.httpError none)).1
      = Except.error { message := "Cuenta bloqueada por intentos fallidos.", remainingAttempts := some 0, isBlocked := some true } ∧
    containsSeq "15".toList "Cuenta bloqueada por intentos fallidos.".toList = false ∧
    containsSeq "minuto".toList "Cuenta bloqueada por intentos fallidos.".toList = false := by
  refine ⟨?_, by decide, by decide⟩
  rw [login_three_fail "alice" "wrong" "wrong" "wrong" none none none 0 1 2
    emptyState rfl rfl rfl]
  rfl

/-- C2 (amended): three failed `login` calls for a fresh username reject the
third with the blocked error whose message is the fixed string
`Cuenta bloqueada por intentos fallidos.` (no remaining time); a fourth
attempt made while the lock is active (here within the first minute of the
window) rejects with the lockout-guard message reporting 15 minutes, without
touching the state or the network; and a login accepted by the backend after
the 15-minute window yields a cleared record (no failed-attempt entry, no
block entry) and a stored session token. -/
theorem C2_lockout_trace (u p1 p2 p3 p4 p5 : String) (t1 t2 t3 t4 t5 : Nat)
    (resp : AuthResponse) (s0 : AuthState)
    (hf : s0.failedAttempts u = none) (hb : s0.blockUntil u = none)
    (hl : s0.logs = [])
    (h34 : t3 ≤ t4) (h4win : t4 < t3 + 60000) (h5 : t3 + BLOCK_DURATION ≤ t5)
    (hj : resp.jwtToken ≠ "") :
    (login (login (login s0 t1 { username := u, password := p1 } false
        (FetchOutcome.httpError none)).2.1 t2 { username := u, password := p2 } false
        (FetchOutcome.httpError none)).2.1 t3 { username := u, password := p3 } false
        (FetchOutcome.httpError none)).1
      = Except.error { message := "Cuenta bloqueada por intentos fallidos.", remainingAttempts := some 0, isBlocked := some true } ∧
    login (login (login (login s0 t1 { username := u, password := p1 } false
        (FetchOutcome.httpError none)).2.1 t2 { username := u, password := p2 } false
        (FetchOutcome.httpError none)).2.1 t3 { username := u, password := p3 } false
        (FetchOutcome.httpError none)).2.1 t4 { username := u, password := p4 } false
        (FetchOutcome.httpError none)
      = (Except.error { message := lockedMsg 15, remainingAttempts := none, isBlocked := some true },
         (login (login (login s0 t1 { username := u, password := p1 } false
           (FetchOutcome.httpError none)).2.1 t2 { username := u, password := p2 } false
           (FetchOutcome.httpError none)).2.1 t3 { username := u, password := p3 } false
           (FetchOutcome.httpError none)).2.1,
         false) ∧
    lockedMsg 15 = "Cuenta bloqueada por intentos fallidos. Intente nuevamente en 15 minutos." ∧
    ((login (login (login (login s0 t1 { username := u, password := p1 } false
        (FetchOutcome.httpError none)).2.1 t2 { username := u, password := p2 } false
        (FetchOutcome.httpError none)).2.1 t3 { username := u, password := p3 } false
        (FetchOutcome.httpError none)).2.1 t5 { username := u, password := p5 } false
        (FetchOutcome.ok resp)).1 = Except.ok resp ∧
     (login (login (login (login s0 t1 { username := u, password := p1 } false
        (FetchOutcome.httpError none)).2.1 t2 { username := u, password := p2 } false
        (FetchOutcome.httpError none)).2.1 t3 { username := u, password := p3 } false
        (FetchOutcome.httpError none)).2.1 t5 { username := u, password := p5 } false
        (FetchOutcome.ok resp)).2.1.failedAttempts u = none ∧
     (login (login (login (login s0 t1 { username := u, password := p1 } false
        (FetchOutcome.httpError none)).2.1 t2 { username := u, password := p2 } false
        (FetchOutcome.httpError none)).2.1 t3 { username := u, password := p3 } false
        (FetchOutcome.httpError none)).2.1 t5 { username := u, password := p5 } false
        (FetchOutcome.ok resp)).2.1.blockUntil u = none ∧
     (login (login (login (login s0 t1 { username := u, password := p1 } false
        (FetchOutcome.httpError none)).2.1 t2 { username := u, password := p2 } false
        (FetchOutcome.httpError none)).2.1 t3 { username := u, password := p3 } false
        (FetchOutcome.httpError none)).2.1 t5 { username := u, password := p5 } false
        (FetchOutcome.ok resp)).2.1.token = some resp.jwtToken ∧
     getRemainingAttempts (login (login (login (login s0 t1 { username := u, password := p1 } false
        (FetchOutcome.httpError none)).2.1 t2 { username := u, password := p2 } false
        (FetchOutcome.httpError none)).2.1 t3 { username := u, password := p3 } false
        (FetchOutcome.httpError none)).2.1 t5 { username := u, password := p5 } false
        (FetchOutcome.ok resp)).2.1 u = 3) := by
  rw [login_three_fail u p1 p2 p3 none none none t1 t2 t3 s0 hf hb hl]
  have hbd : BLOCK_DURATION = 900000 := rfl
  simp only [hbd] at h5 ⊢
  have hne : t3 + 900000 ≠ 0 := by omega
  have h4lt : t4 < t3 + 900000 := by omega
  have h5nlt : ¬ (t5 < t3 + 900000) := by omega
  have hceil : jsCeilDiv ((t3 + 900000) - t4) 60000 = 15 := by
    unfold jsCeilDiv
    omega
  refine ⟨rfl, ?_, by decide, ?_, ?_, ?_, ?_, ?_⟩
  · simp [login, isBlocked, hne, h4lt, getBlockTimeRemaining, hceil]
  · simp [login, isBlocked, hne, h5nlt, h5, hj, resetFailedAttempts]
  · simp [login, isBlocked, hne, h5nlt, h5, hj, resetFailedAttempts]
  · simp [login, isBlocked, hne, h5nlt, h5, hj, resetFailedAttempts]
  · simp [login, isBlocked, hne, h5nlt, h5, hj, resetFailedAttempts]
  · simp [login, isBlocked, hne, h5nlt, h5, hj, resetFailedAttempts,
      getRemainingAttempts, MAX_ATTEMPTS]

/-- C2 (amended) witness at a concrete input. -/
theorem C2_lockout_trace_witness :
    (emptyState.failedAttempts "alice" = none ∧ emptyState.blockUntil "alice" = none ∧
     emptyState.logs = [] ∧ (2 : Nat) ≤ 3 ∧ (3 : Nat) < 2 + 60000 ∧
     2 + BLOCK_DURATION ≤ 900002 ∧ ("tok" : String) ≠ "") ∧
    ((login (login (login emptyState 0 { username := "alice", password := "wrong" } false
        (FetchOutcome.httpError none)).2.1 1 { username := "alice", password := "wrong" } false
        (FetchOutcome.httpError none)).2.1 2 { username := "alice", password := "wrong" } false
        (FetchOutcome.httpError none)).1
      = Except.error { message := "Cuenta bloqueada por intentos fallidos.", remainingAttempts := some 0, isBlocked := some true } ∧
    login (login (login (login emptyState 0 { username := "alice", password := "wrong" } false
        (FetchOutcome.httpError none)).2.1 1 { username := "alice", password := "wrong" } false
        (FetchOutcome.httpError none)).2.1 2 { username := "alice", password := "wrong" } false
        (FetchOutcome.httpError none)).2.1 3 { username := "alice", password := "wrong" } false
        (FetchOutcome.httpError none)
      = (Except.error { message := lockedMsg 15, remainingAttempts := none, isBlocked := some true },
         (login (login (login emptyState 0 { username := "alice", password := "wrong" } false
           (FetchOutcome.httpError none)).2.1 1 { username := "alice", password := "wrong" } false
           (FetchOutcome.httpError none)).2.1 2 { username := "alice", password := "wrong" } false
           (FetchOutcome.httpError none)).2.1,
         false) ∧
    lockedMsg 15 = "Cuenta bloqueada por intentos fallidos. Intente nuevamente en 15 minutos." ∧
    ((login (login (login (login emptyState 0 { username := "alice", password := "wrong" } false
        (FetchOutcome.httpError none)).2.1 1 { username := "alice", password := "wrong" } false
        (FetchOutcome.httpError none)).2.1 2 { username := "alice", password := "wrong" } false
        (FetchOutcome.httpError none)).2.1 900002 { username := "alice", password := "right" } false
        (FetchOutcome.ok { jwtToken := "tok", welcomeMessage := "w", expirationTime := "e" })).1
        = Except.ok { jwtToken := "tok", welcomeMessage := "w", expirationTime := "e" } ∧
     (login (login (login (login emptyState 0 { username := "alice", password := "wrong" } false
        (FetchOutcome.httpError none)).2.1 1 { username := "alice", password := "wrong" } false
        (FetchOutcome.httpError none)).2.1 2 { username := "alice", password := "wrong" } false
        (FetchOutcome.httpError none)).2.1 900002 { username := "alice", password := "right" } false
        (FetchOutcome.ok { jwtToken := "tok", welcomeMessage := "w", expirationTime := "e" })).2.1.failedAttempts "alice" = none ∧
     (login (login (login (login emptyState 0 { username := "alice", password := "wrong" } false
        (FetchOutcome.httpError none)).2.1 1 { username := "alice", password := "wrong" } false
        (FetchOutcome.httpError none)).2.1 2 { username := "alice", password := "wrong" } false
        (FetchOutcome.httpError none)).2.1 900002 { username := "alice", password := "right" } false
        (FetchOutcome.ok { jwtToken := "tok", welcomeMessage := "w", expirationTime := "e" })).2.1.blockUntil "alice" = none ∧
     (login (login (login (login emptyState 0 { username := "alice", password := "wrong" } false
        (FetchOutcome.httpError none)).2.1 1 { username := "alice", password := "wrong" } false
        (FetchOutcome.httpError none)).2.1 2 { username := "alice", password := "wrong" } false
        (FetchOutcome.httpError none)).2.1 900002 { username := "alice", password := "right" } false
        (FetchOutcome.ok { jwtToken := "tok", welcomeMessage := "w", expirationTime := "e" })).2.1.token = some "tok" ∧
     getRemainingAttempts (login (login (login (login emptyState 0 { username := "alice", password := "wrong" } false
        (FetchOutcome.httpError none)).2.1 1 { username := "alice", password := "wrong" } false
        (FetchOutcome.httpError none)).2.1 2 { username := "alice", password := "wrong" } false
        (FetchOutcome.httpError none)).2.1 900002 { username := "alice", password := "right" } false
        (FetchOutcome.ok { jwtToken := "tok", welcomeMessage := "w", expirationTime := "e" })).2.1 "alice" = 3)) :=
  ⟨⟨rfl, rfl, rfl, by decide, by decide, by decide, by decide⟩,
   C2_lockout_trace "alice" "wrong" "wrong" "wrong" "wrong" "right" 0 1 2 3 900002
     { jwtToken := "tok", welcomeMessage := "w", expirationTime := "e" } emptyState
     rfl rfl rfl (by decide) (by decide) (by decide) (by decide)⟩

/-- A state with two prior failed attempts recorded for `alice`. -/
def twoFailState : AuthState :=
  { emptyState with failedAttempts := mapSet emptyState.failedAttempts "alice" 2 }

/-- C9 counterexample: with two prior failures for `alice`, a network outage
(`fetch` rejecting with a `TypeError` carrying the standard non-empty message
"Failed to fetch") does not increment the counter and does not lock the
account: the `catch` block rethrows any exception with a truthy `message`
before reaching its `recordFailedAttempt` call, so the error is propagated
unchanged and the state is untouched. -/
theorem C9_counterexample :
    (login twoFailState 5 { username := "alice", password := "pw" } false
        (FetchOutcome.netError "Failed to fetch")).2.1.blockUntil "alice" = none ∧
    (login twoFailState 5 { username := "alice", password := "pw" } false
        (FetchOutcome.netError "Failed to fetch")).2.1.failedAttempts "alice" = some 2 ∧
    (login twoFailState 5 { username := "alice", password := "pw" } false
        (FetchOutcome.netError "Failed to fetch")).1
      = Except.error { message := "Failed to fetch", remainingAttempts := none, isBlocked := none } := by
  refine ⟨rfl, rfl, rfl⟩

/-- C9 (amended): the `recordFailedAttempt` call in the `catch` block of
`login` runs only when the caught exception's `message` is absent or empty.
A network error whose exception carries a non-empty message — as a rejected
`fetch` does — is rethrown unchanged, with no counter increment and no state
change; only a message-less failure increments the counter, and at two prior
failures such a failure would transition the account into the 15-minute
locked state without any credential being checked. -/
theorem C9_network_error_passthrough (s : AuthState) (now : Nat) (u p msg : String)
    (hnb : (isBlocked s now u).1 = false) :
    (msg ≠ "" →
      login s now { username := u, password := p } false (FetchOutcome.netError msg)
        = (Except.error { message := msg, remainingAttempts := none, isBlocked := none },
           (isBlocked s now u).2, true)) ∧
    (msg = "" → s.failedAttempts u = some 2 → s.blockUntil u = none →
      (login s now { username := u, password := p } false
          (FetchOutcome.netError msg)).2.1.blockUntil u = some (now + BLOCK_DURATION) ∧
      (login s now { username := u, password := p } false (FetchOutcome.netError msg)).1
        = Except.error { message := "Error de conexión. El servidor no está disponible.", remainingAttempts := some 0, isBlocked := none }) := by
  constructor
  · intro hmsg
    rcases hib : isBlocked s now u with ⟨b, s1⟩
    have hb : b = false := by rw [hib] at hnb; exact hnb
    subst hb
    unfold login
    rw [hib]
    simp [hmsg]
  · intro hmsg hf2 hbu
    have hib2 : isBlocked s now u = (false, s) := by
      unfold isBlocked
      rw [hbu]
    unfold login
    rw [hib2]
    subst hmsg
    simp [recordFailedAttempt, hf2, MAX_ATTEMPTS, getRemainingAttempts, logEvent]

/-- C9 (amended) witness at concrete inputs, exercising both halves. -/
theorem C9_network_error_passthrough_witness :
    ((isBlocked twoFailState 5 "alice").1 = false) ∧
    (login twoFailState 5 { username := "alice", password := "pw" } false
        (FetchOutcome.netError "Failed to fetch")
      = (Except.error { message := "Failed to fetch", remainingAttempts := none, isBlocked := none },
         (isBlocked twoFailState 5 "alice").2, true)) ∧
    ((login twoFailState 5 { username := "alice", password := "pw" } false
        (FetchOutcome.netError "")).2.1.blockUntil "alice" = some (5 + BLOCK_DURATION) ∧
     (login twoFailState 5 { username := "alice", password := "pw" } false
        (FetchOutcome.netError "")).1
       = Except.error { message := "Error de conexión. El servidor no está disponible.", remainingAttempts := some 0, isBlocked := none }) :=
  ⟨by decide,
   (C9_network_error_passthrough twoFailState 5 "alice" "pw" "Failed to fetch"
     (by decide)).1 (by decide),
   (C9_network_error_passthrough twoFailState 5 "alice" "pw" ""
     (by decide)).2 rfl rfl rfl⟩

/-- Helper: when every matched pattern is well formed, the validation loop
produces no error, whatever the incoming `lastIndex` state. -/
theorem validatePatterns_nil_errors (ps : List (List Char)) (li : Nat)
    (h : ∀ p ∈ ps, patternContentOk p) : (validatePatterns ps li).1 = [] := by
  induction ps generalizing li with
  | nil => rfl
  | cons p ps ih =>
    obtain ⟨h1, h2⟩ := h p (List.mem_cons_self p ps)
    have htail : ∀ li1 : Nat, (validatePatterns ps li1).1 = [] :=
      fun li1 => ih li1 (fun q hq => h q (List.mem_cons_of_mem p hq))
    have hemp : ((p.drop 1).dropLast).isEmpty = false := by
      cases hdl : (p.drop 1).dropLast with
      | nil => exact absurd hdl h1
      | cons c cs => rfl
    unfold validatePatterns
    rcases hrt : regexTest p li with ⟨matched, li1⟩
    rcases hvp : validatePatterns ps li1 with ⟨rest, li2⟩
    have hr : rest = [] := by
      have h3 := htail li1
      rw [hvp] at h3
      exact h3
    have hno : ∀ x ∈ (p.drop 1).dropLast, isWordChar x = true :=
      fun x hx => List.all_eq_true.mp h2 x hx
    simp only [List.drop_one] at h1 hno
    cases matched with
    | true => simp [hrt, hvp, hr]
    | false =>
      simp [hrt, hvp, hr, h1]
      exact hno

/-- C10 counterexample: on the content consisting of the five characters
`\x7b a \x7b b \x7d`, the single matched brace pattern is the whole string;
its inner content `a\x7bb` contains an opening brace, yet
`validateTemplateContent` (fresh regex state) reports it valid with no
errors, because the global-flag `VARIABLE_REGEX.test` finds the well-formed
substring starting at the inner opening brace. -/
theorem C10_counterexample :
    (validateTemplateContent 0 (String.mk [lbrace, 'a', lbrace, 'b', rbrace])).1.isValid
      = true ∧
    (validateTemplateContent 0 (String.mk [lbrace, 'a', lbrace, 'b', rbrace])).1.errors
      = [] ∧
    bracePatterns (String.mk [lbrace, 'a', lbrace, 'b', rbrace]).toList
      = [[lbrace, 'a', lbrace, 'b', rbrace]] ∧
    ¬ patternContentOk [lbrace, 'a', lbrace, 'b', rbrace] := by
  refine ⟨by decide, by decide, by decide, by decide⟩

/-- C10 (amended): `validateTemplateContent` returns `isValid = true` (and no
error messages) whenever every brace-delimited pattern of the content has a
non-empty inner part made only of letters, digits and underscores — with no
restriction to the predefined variable list and for any incoming
`VARIABLE_REGEX.lastIndex` state.  The converse direction of the claim fails
(see the counterexample): a malformed pattern can escape detection when the
stateful global-flag regex test matches a well-formed substring of it. -/
theorem C10_wellformed_variables_accepted (content : String) (lastIndex0 : Nat)
    (h : ∀ p ∈ bracePatterns content.toList, patternContentOk p) :
    (validateTemplateContent lastIndex0 content).1.isValid = true ∧
    (validateTemplateContent lastIndex0 content).1.errors = [] := by
  have herr : (validatePatterns (bracePatterns content.toList) lastIndex0).1 = [] :=
    validatePatterns_nil_errors _ lastIndex0 h
  unfold validateTemplateContent
  rcases hvp : validatePatterns (bracePatterns content.toList) lastIndex0 with ⟨errs, li⟩
  rw [hvp] at herr
  simp only at herr
  subst herr
  simp

/-- C10 (amended) witness at a concrete input. -/
theorem C10_wellformed_variables_accepted_witness :
    (∀ p ∈ bracePatterns ("Hola " ++ String.mk [lbrace] ++ "nombre_cliente" ++ String.mk [rbrace]).toList, patternContentOk p) ∧
    ((validateTemplateContent 0 ("Hola " ++ String.mk [lbrace] ++ "nombre_cliente" ++ String.mk [rbrace])).1.isValid = true ∧
     (validateTemplateContent 0 ("Hola " ++ String.mk [lbrace] ++ "nombre_cliente" ++ String.mk [rbrace])).1.errors = []) :=
  ⟨by decide,
   C10_wellformed_variables_accepted
     ("Hola " ++ String.mk [lbrace] ++ "nombre_cliente" ++ String.mk [rbrace]) 0
     (by decide)⟩

end TelcoNova
